import Mathlib

/-!
Verification of the Varuna emergency-response agent core.

The definitions below are a shallow embedding of the repository's Python
sources (src/agent/models.py, src/agent/config.py,
src/agent/agents/orchestrator.py, src/agent/agents/graph.py,
src/agent/redis_client.py, src/agent/agents/scanner.py) into Lean:

* Python floats are modelled as rationals.
* Python dictionaries produced by the intelligence provider are modelled as
  structures whose fields carry the values that the access patterns
  dict.get(key, default) read; a JSON object missing a key is modelled by the
  corresponding default value.
* Randomly generated identities (uuid4) and wall-clock timestamps
  (datetime.now) are omitted from the modelled records: no modelled logic
  reads them.
* External calls (the Groq LLM, Tavily, Supabase, Redis) are modelled as
  explicit outcome parameters of type Except or Option; a raised Python
  exception is an Except.error value.
-/

namespace Varuna

/-! ## Data model (src/agent/models.py) -/

/-- SeverityLevel enum of models.py. -/
inductive SeverityLevel where
  | critical
  | high
  | medium
  | low
deriving DecidableEq, Repr

/-- The string value of a SeverityLevel member. -/
def SeverityLevel.value : SeverityLevel → String
  | .critical => "critical"
  | .high => "high"
  | .medium => "medium"
  | .low => "low"

/-- The SeverityLevel(str) constructor: raises ValueError on a non-member,
modelled as none. -/
def parseSeverityLevel (s : String) : Option SeverityLevel :=
  if s == "critical" then some .critical
  else if s == "high" then some .high
  else if s == "medium" then some .medium
  else if s == "low" then some .low
  else none

/-- IncidentType enum of models.py. -/
inductive IncidentType where
  | fire
  | road_accident
  | building_collapse
  | chemical_spill
  | gas_leak
  | stampede
  | terror_attack
  | train_accident
  | flood
  | epidemic_outbreak
  | unknown
deriving DecidableEq, Repr

/-- The string value of an IncidentType member. -/
def IncidentType.value : IncidentType → String
  | .fire => "fire"
  | .road_accident => "road_accident"
  | .building_collapse => "building_collapse"
  | .chemical_spill => "chemical_spill"
  | .gas_leak => "gas_leak"
  | .stampede => "stampede"
  | .terror_attack => "terror_attack"
  | .train_accident => "train_accident"
  | .flood => "flood"
  | .epidemic_outbreak => "epidemic_outbreak"
  | .unknown => "unknown"

/-- Location model of models.py. -/
structure Location where
  lat : ℚ
  lng : ℚ
  address : String := ""
  distance_from_hospital : Option ℚ := none
deriving DecidableEq, Repr

/-- CasualtyEstimate model of models.py. -/
structure CasualtyEstimate where
  min : Int
  max : Int
  likely : Int
  confidence : ℚ
deriving DecidableEq, Repr

/-- IncidentReport model of models.py (source_url, detected_at, raw_data and
ai_analysis are carried but never read by the modelled logic; omitted). -/
structure IncidentReport where
  id : String
  title : String
  description : String
  type : IncidentType
  severity : SeverityLevel
  location : Location
  estimated_casualties : CasualtyEstimate
  injury_types : List String
  recommended_departments : List String
  eta_minutes : Int
  source : String
  confidence_score : ℚ
deriving DecidableEq, Repr

/-- ResourceStatus model of models.py. -/
structure ResourceStatus where
  resource_type : String
  current_level : ℚ
  capacity : ℚ
  status : String
  hours_remaining : Option ℚ := none
deriving DecidableEq, Repr

/-- ResourceRequest model of models.py (id and requested_at omitted: uuid4
and datetime.now). -/
structure ResourceRequest where
  resource_type : String
  quantity : Int
  urgency : SeverityLevel
  vendor_id : String
  vendor_name : String
  estimated_arrival_minutes : Int
  status : String := "pending"
deriving DecidableEq, Repr

/-- HospitalAlert model of models.py (id and sent_at omitted: uuid4 and
datetime.now). -/
structure HospitalAlert where
  hospital_id : String
  hospital_name : String
  alert_type : String
  incident_id : String
  message : String
  expected_patients : Int
  acknowledged : Bool := false
deriving DecidableEq, Repr

/-- OrchestrationResult model of models.py. -/
structure OrchestrationResult where
  incident_id : String
  resource_status : List ResourceStatus
  resource_requests : List ResourceRequest
  hospital_alerts : List HospitalAlert
  recommendations : List String
  capacity_score : ℚ
  prepared : Bool
deriving DecidableEq, Repr

/-- OrchestrationRequest model of models.py. -/
structure OrchestrationRequest where
  incident : IncidentReport
  auto_request_resources : Bool := false
  auto_alert_hospitals : Bool := true
deriving DecidableEq, Repr

/-- OrchestrationResponse model of models.py. -/
structure OrchestrationResponse where
  success : Bool
  result : OrchestrationResult
  message : String
deriving DecidableEq, Repr

/-! ## Registries (src/agent/config.py) -/

/-- One entry of the NEARBY_HOSPITALS registry of config.py (the capacity and
specialties sub-fields are read only when formatting the LLM prompt, which is
external; they are omitted). -/
structure Hospital where
  id : String
  name : String
  lat : ℚ
  lng : ℚ
  distance_km : ℚ
deriving DecidableEq, Repr

/-- NEARBY_HOSPITALS of config.py, in source order. -/
def NEARBY_HOSPITALS : List Hospital :=
  [ { id := "safdarjung", name := "Safdarjung Hospital", lat := 285679/10000, lng := 772069/10000, distance_km := 52/10 },
    { id := "aiims", name := "AIIMS Delhi", lat := 285672/10000, lng := 772100/10000, distance_km := 55/10 },
    { id := "rml", name := "RML Hospital", lat := 286269/10000, lng := 772050/10000, distance_km := 21/10 },
    { id := "gtb", name := "GTB Hospital", lat := 286866/10000, lng := 773109/10000, distance_km := 125/10 },
    { id := "lnjp", name := "LNJP Hospital", lat := 286369/10000, lng := 772393/10000, distance_km := 38/10 } ]

/-- One entry of the VENDORS registry of config.py (contact and capacity are
never read by the modelled logic; omitted). -/
structure Vendor where
  id : String
  name : String
  resource_type : String
  response_time_minutes : Int
  reliability_score : ℚ
deriving DecidableEq, Repr

/-- VENDORS of config.py, in source order. -/
def VENDORS : List Vendor :=
  [ { id := "vendor_oxygen_1", name := "Delhi Oxygen Supplies", resource_type := "oxygen", response_time_minutes := 30, reliability_score := 95/100 },
    { id := "vendor_blood_1", name := "Central Blood Bank", resource_type := "blood", response_time_minutes := 45, reliability_score := 92/100 },
    { id := "vendor_meds_1", name := "PharmaCare Express", resource_type := "medications", response_time_minutes := 60, reliability_score := 88/100 },
    { id := "vendor_equipment_1", name := "MedEquip Rentals", resource_type := "equipment", response_time_minutes := 120, reliability_score := 85/100 },
    { id := "vendor_ambulance_1", name := "Delhi EMS Network", resource_type := "ambulance", response_time_minutes := 15, reliability_score := 97/100 } ]

/-! ## String helpers (Python lower() and the "in" substring test) -/

/-- Python substring containment: needle in hay, on character lists. -/
def charListInfix (needle hay : List Char) : Bool :=
  hay.tails.any (fun t => needle.isPrefixOf t)

/-- Python substring containment: needle in hay. -/
def strContains (hay needle : String) : Bool :=
  charListInfix needle.toList hay.toList

/-- Python str.lower(), character by character. -/
def strToLower (s : String) : String :=
  ⟨s.data.map Char.toLower⟩

/-- Python str.upper(), character by character. -/
def strToUpper (s : String) : String :=
  ⟨s.data.map Char.toUpper⟩

/-! ## The provider strategy object (orchestrator.py)

The strategy is a Python dict parsed from the provider's JSON; the modelled
fields are exactly those the orchestrator reads, with dict.get defaults for
absent keys. The resource_priorities list is never read; omitted. -/

/-- One hospital_coordination entry of the strategy dict. -/
structure HospitalCoordination where
  hospital : String := ""
  action : String := "alert"
  patients_to_send : Int := 0
  reason : String := "Requesting coordination."
deriving DecidableEq, Repr

/-- One vendor_orders entry of the strategy dict. -/
structure VendorOrder where
  vendor_type : String := ""
  quantity : String := ""
  urgency : String := "high"
deriving DecidableEq, Repr

/-- The strategy dict as read by the orchestrator. -/
structure Strategy where
  overall_assessment : String := ""
  capacity_score : ℚ := 1/2
  hospital_coordination : List HospitalCoordination := []
  vendor_orders : List VendorOrder := []
  staffing_recommendations : List String := []
  contingency_plans : List String := []
deriving DecidableEq, Repr

/-! ## ResourceOrchestrator (src/agent/agents/orchestrator.py) -/

/-- ResourceOrchestrator._calculate_status (orchestrator.py lines 236-245). -/
def calculate_status (current capacity : ℚ) : String :=
  if capacity == 0 then "critical"
  else if current / capacity ≤ 1/5 then "critical"
  else if current / capacity ≤ 2/5 then "low"
  else "adequate"

/-- The body of the resource loop of _get_fallback_strategy (orchestrator.py
lines 318-322). -/
def fallbackStep (acc : ℚ) (r : ResourceStatus) : ℚ :=
  if r.status == "critical" then acc - 15/100
  else if r.status == "low" then acc - 8/100
  else acc

/-- ResourceOrchestrator._get_fallback_strategy (orchestrator.py lines
307-332). -/
def get_fallback_strategy (incident : IncidentReport) (resources : List ResourceStatus) : Strategy :=
  let capacity_score : ℚ := 7/10
  let capacity_score :=
    if incident.severity == .critical then capacity_score - 3/10
    else if incident.severity == .high then capacity_score - 2/10
    else capacity_score
  let capacity_score := resources.foldl fallbackStep capacity_score
  { overall_assessment := "Incoming " ++ incident.severity.value ++ " " ++ incident.type.value ++ " incident",
    capacity_score := max (1/10) (min 1 capacity_score),
    hospital_coordination := [],
    vendor_orders := [],
    staffing_recommendations := ["Call in on-call staff", "Prepare surge protocols"],
    contingency_plans := ["Activate mutual aid agreements", "Prepare for ambulance diversion"] }

/-- The default dict returned by _parse_strategy when no JSON object can be
extracted from the provider output (orchestrator.py line 305). -/
def defaultParsedStrategy : Strategy :=
  { overall_assessment := "",
    capacity_score := 1/2,
    hospital_coordination := [],
    vendor_orders := [],
    staffing_recommendations := [],
    contingency_plans := [] }

/-- ResourceOrchestrator._parse_strategy (orchestrator.py lines 295-305): the
argument models whether a JSON object could be extracted from the raw
response text. -/
def parse_strategy (parsed : Option Strategy) : Strategy :=
  match parsed with
  | some s => s
  | none => defaultParsedStrategy

/-- ResourceOrchestrator._get_ai_strategy (orchestrator.py lines 252-293):
the provider argument is Except.error when formatting or the LLM call raises
(the except branch, line 291), otherwise the parse outcome of the returned
content. -/
def get_ai_strategy (provider : Except String (Option Strategy))
    (incident : IncidentReport) (resources : List ResourceStatus) : Strategy :=
  match provider with
  | .error _ => get_fallback_strategy incident resources
  | .ok parsed => parse_strategy parsed

/-- Hospitals of the registry whose name contains the given name,
case-insensitively (orchestrator.py line 364). -/
def matchingHospitals (name : String) : List Hospital :=
  NEARBY_HOSPITALS.filter (fun h => strContains (strToLower h.name) (strToLower name))

/-- Vendors of the registry whose resource_type contains the given lowered
category (orchestrator.py line 340). -/
def matchingVendors (vendor_type : String) : List Vendor :=
  VENDORS.filter (fun v => strContains v.resource_type vendor_type)

/-- Decimal-free rendering of a rational for message text (Python renders the
underlying float; the exact text is irrelevant to the modelled logic). -/
def ratStr (q : ℚ) : String :=
  toString q.num ++ (if q.den == 1 then "" else "/" ++ toString q.den)

/-- Python string interpolation of an optional float (None renders as
"None"). -/
def optionalRatStr : Option ℚ → String
  | some q => ratStr q
  | none => "None"

/-- The alert appended for one matched coordination entry (orchestrator.py
lines 370-380). -/
def mkCoordinationAlert (incident : IncidentReport) (coord : HospitalCoordination)
    (hospital : Hospital) : HospitalAlert :=
  { hospital_id := hospital.id,
    hospital_name := hospital.name,
    alert_type := coord.action,
    incident_id := incident.id,
    message := strToUpper incident.type.value ++ " incident. " ++ coord.reason,
    expected_patients := coord.patients_to_send,
    acknowledged := false }

/-- The awareness alert appended for one of the first three registry
hospitals (orchestrator.py lines 386-396). -/
def mkAwarenessAlert (incident : IncidentReport) (hospital : Hospital) : HospitalAlert :=
  { hospital_id := hospital.id,
    hospital_name := hospital.name,
    alert_type := "awareness",
    incident_id := incident.id,
    message := "ALERT: " ++ strToUpper incident.severity.value ++ " " ++ incident.type.value
      ++ " incident " ++ optionalRatStr incident.location.distance_from_hospital
      ++ "km away. Est. " ++ toString incident.estimated_casualties.likely ++ " casualties.",
    expected_patients := incident.estimated_casualties.likely.fdiv 3,
    acknowledged := false }

/-- The body of the coordination loop of _generate_hospital_alerts
(orchestrator.py lines 362-380). -/
def coordinationStep (incident : IncidentReport) (alerts : List HospitalAlert)
    (coord : HospitalCoordination) : List HospitalAlert :=
  match matchingHospitals coord.hospital with
  | [] => alerts
  | hospital :: _ => alerts ++ [mkCoordinationAlert incident coord hospital]

/-- The body of the fallback loop of _generate_hospital_alerts
(orchestrator.py lines 384-396): skip a hospital whose id is already
alerted. -/
def awarenessStep (incident : IncidentReport) (alerts : List HospitalAlert)
    (hospital : Hospital) : List HospitalAlert :=
  if alerts.any (fun a => a.hospital_id == hospital.id) then alerts
  else alerts ++ [mkAwarenessAlert incident hospital]

/-- ResourceOrchestrator._generate_hospital_alerts (orchestrator.py lines
358-398). -/
def generate_hospital_alerts (incident : IncidentReport) (strategy : Strategy) :
    List HospitalAlert :=
  let alerts := strategy.hospital_coordination.foldl (coordinationStep incident) []
  if incident.severity == .critical || incident.severity == .high then
    (NEARBY_HOSPITALS.take 3).foldl (awarenessStep incident) alerts
  else alerts

/-- The body of the vendor-order loop of _generate_resource_requests
(orchestrator.py lines 338-354). SeverityLevel(order.get("urgency", "high"))
raises ValueError on a non-member string, modelled as Except.error. -/
def vendorOrderStep (reqs : List ResourceRequest) (order : VendorOrder) :
    Except String (List ResourceRequest) :=
  let vendor_type := strToLower order.vendor_type
  match matchingVendors vendor_type with
  | [] => .ok reqs
  | vendor :: _ =>
    match parseSeverityLevel order.urgency with
    | none => .error ("ValueError: " ++ order.urgency ++ " is not a valid SeverityLevel")
    | some urgency =>
      .ok (reqs ++
        [{ resource_type := vendor_type,
           quantity := 1,
           urgency := urgency,
           vendor_id := vendor.id,
           vendor_name := vendor.name,
           estimated_arrival_minutes := vendor.response_time_minutes,
           status := "pending" }])

/-- The vendor-order loop, aborting at the first raised error. -/
def vendorOrdersFold (acc : List ResourceRequest) :
    List VendorOrder → Except String (List ResourceRequest)
  | [] => .ok acc
  | o :: os =>
    match vendorOrderStep acc o with
    | .error e => .error e
    | .ok acc2 => vendorOrdersFold acc2 os

/-- ResourceOrchestrator._generate_resource_requests (orchestrator.py lines
334-356). -/
def generate_resource_requests (_incident : IncidentReport) (strategy : Strategy) :
    Except String (List ResourceRequest) :=
  vendorOrdersFold [] strategy.vendor_orders

/-- ResourceOrchestrator._compile_recommendations (orchestrator.py lines
400-413); an absent or empty overall_assessment is falsy and skipped. -/
def compile_recommendations (strategy : Strategy) : List String :=
  (if strategy.overall_assessment == "" then [] else ["📋 " ++ strategy.overall_assessment])
    ++ strategy.staffing_recommendations.map (fun s => "👥 " ++ s)
    ++ strategy.contingency_plans.map (fun c => "🔄 " ++ c)

/-- The resource_status row fetched from the store (orchestrator.py lines
182-221); dict.get defaults are applied by the field defaults. -/
structure ResourceRow where
  beds_total : ℚ := 100
  beds_occupied : ℚ := 70
  icu_beds_total : ℚ := 20
  icu_beds_occupied : ℚ := 15
  oxygen_supply : ℚ := 75
  ventilators_available : ℚ := 8
  ventilators_total : ℚ := 15
  blood_units : ℚ := 120
deriving DecidableEq, Repr

/-- The resource list built from a fetched row (orchestrator.py lines
185-221). -/
def resourcesFromRow (d : ResourceRow) : List ResourceStatus :=
  [ { resource_type := "beds",
      current_level := d.beds_total - d.beds_occupied,
      capacity := d.beds_total,
      status := calculate_status (d.beds_total - d.beds_occupied) d.beds_total,
      hours_remaining := none },
    { resource_type := "icu_beds",
      current_level := d.icu_beds_total - d.icu_beds_occupied,
      capacity := d.icu_beds_total,
      status := calculate_status (d.icu_beds_total - d.icu_beds_occupied) d.icu_beds_total,
      hours_remaining := none },
    { resource_type := "oxygen",
      current_level := d.oxygen_supply,
      capacity := 100,
      status := calculate_status d.oxygen_supply 100,
      hours_remaining := some (d.oxygen_supply * (24/100)) },
    { resource_type := "ventilators",
      current_level := d.ventilators_available,
      capacity := d.ventilators_total,
      status := calculate_status d.ventilators_available d.ventilators_total,
      hours_remaining := none },
    { resource_type := "blood_units",
      current_level := d.blood_units,
      capacity := 200,
      status := calculate_status d.blood_units 200,
      hours_remaining := none } ]

/-- The mock resource fallback of _get_resource_status (orchestrator.py lines
227-234). -/
def mockResources : List ResourceStatus :=
  [ { resource_type := "beds", current_level := 30, capacity := 100, status := "adequate" },
    { resource_type := "icu_beds", current_level := 5, capacity := 20, status := "low" },
    { resource_type := "oxygen", current_level := 65, capacity := 100, status := "adequate", hours_remaining := some (156/10) },
    { resource_type := "ventilators", current_level := 8, capacity := 15, status := "adequate" },
    { resource_type := "blood_units", current_level := 80, capacity := 200, status := "low" },
    { resource_type := "staff_on_duty", current_level := 45, capacity := 80, status := "adequate" } ]

/-- ResourceOrchestrator._get_resource_status (orchestrator.py lines
175-234): the argument is the fetched row, none when the store is not
configured, the fetch raises, or no row comes back. -/
def get_resource_status (row : Option ResourceRow) : List ResourceStatus :=
  match row with
  | some d => resourcesFromRow d
  | none => mockResources

/-- The pending war-room record inserted into the incident_alerts table for a
critical incident (orchestrator.py lines 131-142). -/
structure PendingAlert where
  incident_type : String
  severity : String
  location : String
  description : String
  resource_requests : List ResourceRequest
  hospital_alerts : List HospitalAlert
  strategy : Strategy
  status : String
deriving DecidableEq, Repr

/-- The external outcomes one call of orchestrate observes: the resource
fetch, the provider call, whether the durable store is configured, and the
outcome of the pending-record insert. -/
structure OrchEnv where
  resourceRow : Option ResourceRow
  providerResult : Except String (Option Strategy)
  storeConfigured : Bool
  storeInsert : Except String Nat
deriving Repr

/-- Python f-string percent formatting of the capacity score. -/
def formatPercent (q : ℚ) : String :=
  toString (round (q * 100)) ++ "%"

/-- Whether an Except value is ok. -/
def exceptIsOk {ε α : Type} : Except ε α → Bool
  | .ok _ => true
  | .error _ => false

/-- ResourceOrchestrator.orchestrate (orchestrator.py lines 100-173). The
second component of the returned pair is the pending war-room record the call
persisted, none when none was (store not configured, or the insert raised:
the exception is caught and approval is still required). -/
def orchestrate (request : OrchestrationRequest) (env : OrchEnv) :
    Except String (OrchestrationResponse × Option PendingAlert) :=
  let incident := request.incident
  let resources := get_resource_status env.resourceRow
  let strategy := get_ai_strategy env.providerResult incident resources
  match generate_resource_requests incident strategy with
  | .error e => .error e
  | .ok resource_requests =>
    let hospital_alerts := generate_hospital_alerts incident strategy
    let recommendations := compile_recommendations strategy
    let requires_approval := incident.severity == SeverityLevel.critical
    let pending : Option PendingAlert :=
      if requires_approval && env.storeConfigured then
        match env.storeInsert with
        | .ok _ =>
          some { incident_type := incident.type.value,
                 severity := incident.severity.value,
                 location := incident.location.address,
                 description := incident.description,
                 resource_requests := resource_requests,
                 hospital_alerts := hospital_alerts,
                 strategy := strategy,
                 status := "pending" }
        | .error _ => none
      else none
    let final_resource_requests :=
      if requires_approval then []
      else if request.auto_request_resources then resource_requests else []
    let final_hospital_alerts :=
      if requires_approval then []
      else if request.auto_alert_hospitals then hospital_alerts else []
    let capacity_score := strategy.capacity_score
    let result : OrchestrationResult :=
      { incident_id := incident.id,
        resource_status := resources,
        resource_requests := final_resource_requests,
        hospital_alerts := final_hospital_alerts,
        recommendations := recommendations,
        capacity_score := capacity_score,
        prepared := decide (capacity_score ≥ 6/10) }
    let message := "Orchestration complete. Capacity score: " ++ formatPercent result.capacity_score
    let message := if requires_approval then message ++ " [PAUSED: Awaiting War Room Approval]" else message
    .ok ({ success := true, result := result, message := message }, pending)

/-- The pending record, when one exists, carries exactly the compiled
requests and alerts for the incident and strategy. -/
def pendingCarriesComputed (pending : Option PendingAlert) (incident : IncidentReport)
    (strategy : Strategy) : Prop :=
  match pending with
  | none => True
  | some p =>
      generate_resource_requests incident strategy = .ok p.resource_requests
      ∧ p.hospital_alerts = generate_hospital_alerts incident strategy
      ∧ p.strategy = strategy
      ∧ p.status = "pending"

/-- Number of resources in the list carrying the given status string. -/
def countStatus (resources : List ResourceStatus) (s : String) : Nat :=
  (resources.filter (fun r => r.status == s)).length

theorem fallbackFold_closed (resources : List ResourceStatus) (init : ℚ) :
    List.foldl fallbackStep init resources
      = init - (15/100) * countStatus resources "critical"
          - (8/100) * countStatus resources "low" := by
  induction resources generalizing init with
  | nil => simp [countStatus]
  | cons r rs ih =>
    by_cases h1 : r.status = "critical"
    · simp [fallbackStep, countStatus, List.filter_cons, h1, ih]
      ring
    · by_cases h2 : r.status = "low"
      · simp [fallbackStep, countStatus, List.filter_cons, h1, h2, ih]
        ring
      · simp [fallbackStep, countStatus, List.filter_cons, h1, h2, ih]

/-- C3: the fallback strategy's capacity score is the baseline 0.7, minus 0.3
for a critical or 0.2 for a high severity incident, minus 0.15 per resource
at critical status and 0.08 per resource at low status, clamped to the
interval from 0.1 to 1.0. -/
theorem fallback_capacity_score_formula (incident : IncidentReport)
    (resources : List ResourceStatus) :
    (get_fallback_strategy incident resources).capacity_score
      = max (1/10)
          (min 1
            ((7/10 : ℚ)
              - (if incident.severity = .critical then 3/10
                 else if incident.severity = .high then 2/10 else 0)
              - (15/100) * countStatus resources "critical"
              - (8/100) * countStatus resources "low")) := by
  rcases hsev : incident.severity with _ | _ | _ | _ <;>
    simp [get_fallback_strategy, hsev, fallbackFold_closed]

/-! ## Fixtures for concrete evaluations -/

/-- A concrete incident at the given severity (values from the demo data of
scanner.py). -/
def fixtureIncident (sev : SeverityLevel) : IncidentReport :=
  { id := "incident-1",
    title := "Major Fire at Karol Bagh Market",
    description := "A massive fire broke out in Gaffar Market.",
    type := .fire,
    severity := sev,
    location := { lat := 286519/10000, lng := 771903/10000,
                  address := "Gaffar Market, Karol Bagh",
                  distance_from_hospital := some (45/10) },
    estimated_casualties := { min := 5, max := 25, likely := 12, confidence := 3/4 },
    injury_types := ["Burns", "Smoke Inhalation", "Trauma"],
    recommended_departments := ["Burn Unit", "Emergency"],
    eta_minutes := 15,
    source := "news",
    confidence_score := 85/100 }

/-- A strategy whose two coordination entries both resolve to the AIIMS
registry hospital. -/
def duplicateCoordinationStrategy : Strategy :=
  { defaultParsedStrategy with
    hospital_coordination :=
      [ { hospital := "AIIMS", action := "alert", patients_to_send := 5,
          reason := "Send overflow patients." },
        { hospital := "aiims", action := "request_beds", patients_to_send := 3,
          reason := "Need ICU beds." } ] }

/-- A strategy whose coordination entries resolve to two distinct registry
hospitals. -/
def distinctCoordinationStrategy : Strategy :=
  { defaultParsedStrategy with
    hospital_coordination :=
      [ { hospital := "AIIMS", action := "alert", patients_to_send := 5,
          reason := "Send overflow patients." },
        { hospital := "RML", action := "request_beds", patients_to_send := 3,
          reason := "Need ICU beds." } ] }

/-- A strategy carrying one oxygen vendor order. -/
def oxygenOrderStrategy : Strategy :=
  { defaultParsedStrategy with
    vendor_orders := [{ vendor_type := "Oxygen", quantity := "50 cylinders", urgency := "critical" }] }

/-- The single request the oxygen order compiles to. -/
def oxygenRequest : ResourceRequest :=
  { resource_type := "oxygen", quantity := 1, urgency := .critical,
    vendor_id := "vendor_oxygen_1", vendor_name := "Delhi Oxygen Supplies",
    estimated_arrival_minutes := 30, status := "pending" }

/-! ## C10: every compiled resource request has quantity one -/

theorem vendorOrdersFold_quantity (orders : List VendorOrder)
    (acc reqs : List ResourceRequest)
    (hacc : ∀ x ∈ acc, x.quantity = 1)
    (hok : vendorOrdersFold acc orders = .ok reqs) :
    ∀ x ∈ reqs, x.quantity = 1 := by
  induction orders generalizing acc with
  | nil =>
    simp only [vendorOrdersFold, Except.ok.injEq] at hok
    subst hok
    exact hacc
  | cons o os ih =>
    simp only [vendorOrdersFold] at hok
    rcases hstep : vendorOrderStep acc o with e | acc2
    · rw [hstep] at hok
      cases hok
    · rw [hstep] at hok
      refine ih acc2 ?_ hok
      simp only [vendorOrderStep] at hstep
      rcases hm : matchingVendors (strToLower o.vendor_type) with _ | ⟨v, vs⟩
      · rw [hm] at hstep
        simp only [Except.ok.injEq] at hstep
        subst hstep
        exact hacc
      · rw [hm] at hstep
        rcases hu : parseSeverityLevel o.urgency with _ | u
        · rw [hu] at hstep
          cases hstep
        · rw [hu] at hstep
          simp only [Except.ok.injEq] at hstep
          subst hstep
          intro x hx
          rcases List.mem_append.mp hx with hx | hx
          · exact hacc x hx
          · simp only [List.mem_singleton] at hx
            subst hx
            rfl

/-- C10: every resource request emitted by the resource-request generator has
quantity one, regardless of the quantity field of the vendor order. -/
theorem resource_request_quantity_is_one (incident : IncidentReport) (strategy : Strategy)
    (reqs : List ResourceRequest) (r : ResourceRequest)
    (hok : generate_resource_requests incident strategy = .ok reqs) (hr : r ∈ reqs) :
    r.quantity = 1 :=
  vendorOrdersFold_quantity strategy.vendor_orders [] reqs (by simp) hok r hr

/-- C10 witness: the oxygen order compiles to one concrete request of
quantity one. -/
theorem resource_request_quantity_witness :
    generate_resource_requests (fixtureIncident .high) oxygenOrderStrategy = .ok [oxygenRequest]
    ∧ oxygenRequest ∈ [oxygenRequest]
    ∧ oxygenRequest.quantity = 1 :=
  ⟨rfl, List.mem_singleton_self oxygenRequest,
    resource_request_quantity_is_one (fixtureIncident .high) oxygenOrderStrategy
      [oxygenRequest] oxygenRequest rfl (List.mem_singleton_self oxygenRequest)⟩

/-! ## C6: uniqueness of hospital ids in one compiled alert set -/

/-- The registry hospital a coordination entry resolves to, if any. -/
def matchedHospital (coord : HospitalCoordination) : Option Hospital :=
  (matchingHospitals coord.hospital).head?

theorem coordinationFold_ids (incident : IncidentReport)
    (coords : List HospitalCoordination) (acc : List HospitalAlert) :
    (coords.foldl (coordinationStep incident) acc).map (fun a => a.hospital_id)
      = acc.map (fun a => a.hospital_id)
        ++ (coords.filterMap matchedHospital).map (fun h => h.id) := by
  induction coords generalizing acc with
  | nil => simp
  | cons c cs ih =>
    simp only [List.foldl_cons, List.filterMap_cons]
    rcases hm : matchingHospitals c.hospital with _ | ⟨h, hs⟩
    · simp [coordinationStep, hm, matchedHospital, ih]
    · simp [coordinationStep, hm, matchedHospital, ih, mkCoordinationAlert]

theorem awarenessFold_nodup (incident : IncidentReport) (tops : List Hospital)
    (acc : List HospitalAlert)
    (h : (acc.map (fun a => a.hospital_id)).Nodup) :
    ((tops.foldl (awarenessStep incident) acc).map (fun a => a.hospital_id)).Nodup := by
  induction tops generalizing acc with
  | nil => exact h
  | cons t ts ih =>
    simp only [List.foldl_cons]
    by_cases hmem : acc.any (fun a => a.hospital_id == t.id) = true
    · simpa [awarenessStep, hmem] using ih acc h
    · have hnotin : t.id ∉ acc.map (fun a => a.hospital_id) := by
        simp only [List.any_eq_true, beq_iff_eq] at hmem
        push_neg at hmem
        simp only [List.mem_map]
        rintro ⟨a, ha, he⟩
        exact hmem a ha he
      have hstep : awarenessStep incident acc t = acc ++ [mkAwarenessAlert incident t] := by
        simp [awarenessStep, hmem]
      rw [hstep]
      refine ih (acc ++ [mkAwarenessAlert incident t]) ?_
      simp only [List.map_append, List.map_cons, List.map_nil]
      rw [List.nodup_append]
      refine ⟨h, List.nodup_singleton _, ?_⟩
      intro x hx hx2
      simp only [mkAwarenessAlert, List.mem_singleton] at hx2
      subst hx2
      exact hnotin hx

/-- C6 counterexample: two coordination entries resolving to the same
registry hospital produce two alerts with the same hospital id: the alert set
for one incident does not keep hospital ids unique in that case. -/
theorem duplicate_hospital_alert_ids :
    ((generate_hospital_alerts (fixtureIncident .low) duplicateCoordinationStrategy).map
        (fun a => a.hospital_id)) = ["aiims", "aiims"]
    ∧ ¬ ((generate_hospital_alerts (fixtureIncident .low) duplicateCoordinationStrategy).map
        (fun a => a.hospital_id)).Nodup := by
  constructor
  · rfl
  · decide

/-- C6 amended: in the alert set compiled for one incident every hospital id
appears at most once provided the strategy's coordination entries resolve to
pairwise distinct registry hospitals; the mandatory fallback phase never
introduces a duplicate because it skips every hospital id already
alerted. -/
theorem hospital_alert_ids_nodup (incident : IncidentReport) (strategy : Strategy)
    (h : ((strategy.hospital_coordination.filterMap matchedHospital).map
          (fun h => h.id)).Nodup) :
    ((generate_hospital_alerts incident strategy).map (fun a => a.hospital_id)).Nodup := by
  unfold generate_hospital_alerts
  have hcoord : ((strategy.hospital_coordination.foldl (coordinationStep incident) []).map
      (fun a => a.hospital_id)).Nodup := by
    rw [coordinationFold_ids]
    simpa using h
  by_cases hsev : (incident.severity == SeverityLevel.critical
      || incident.severity == SeverityLevel.high) = true
  · simp only [hsev, if_true]
    exact awarenessFold_nodup incident (NEARBY_HOSPITALS.take 3) _ hcoord
  · simp only [Bool.not_eq_true] at hsev
    simp only [hsev, Bool.false_eq_true, if_false]
    exact hcoord

/-- C6 witness: two coordination entries resolving to distinct hospitals plus
the fallback phase yield an alert set with pairwise distinct hospital ids. -/
theorem hospital_alert_ids_nodup_witness :
    ((distinctCoordinationStrategy.hospital_coordination.filterMap matchedHospital).map
        (fun h => h.id)).Nodup
    ∧ ((generate_hospital_alerts (fixtureIncident .high) distinctCoordinationStrategy).map
        (fun a => a.hospital_id)).Nodup :=
  ⟨by decide, hospital_alert_ids_nodup (fixtureIncident .high) distinctCoordinationStrategy (by decide)⟩

/-! ## C4: the mandatory fallback alerts go to the first three registry
hospitals in source order, which are not the three nearest by distance -/

/-- C4 (code evaluated at the failing input): for a high-severity incident
with no coordination entries, the awareness alerts go to the first three
hospitals of the registry in source order (safdarjung at 5.2 km, aiims at
5.5 km, rml at 2.1 km); lnjp at 3.8 km, nearer than aiims, receives no
alert, so the alerted set is not the three nearest by distance. Each alert
does carry expected patients equal to the likely casualty estimate
integer-divided by three (12 div 3 = 4). -/
theorem fallback_alerts_first_three_not_nearest :
    ((generate_hospital_alerts (fixtureIncident .high) defaultParsedStrategy).map
        (fun a => a.hospital_id)) = ["safdarjung", "aiims", "rml"]
    ∧ ((generate_hospital_alerts (fixtureIncident .high) defaultParsedStrategy).map
        (fun a => a.alert_type)) = ["awareness", "awareness", "awareness"]
    ∧ ((generate_hospital_alerts (fixtureIncident .high) defaultParsedStrategy).map
        (fun a => a.expected_patients)) = [4, 4, 4]
    ∧ ((NEARBY_HOSPITALS.filter (fun h => h.id == "lnjp")).map (fun h => h.distance_km))
        = [38/10]
    ∧ ((NEARBY_HOSPITALS.filter (fun h => h.id == "aiims")).map (fun h => h.distance_km))
        = [55/10]
    ∧ ((38 : ℚ)/10 < 55/10)
    ∧ "lnjp" ∉ ((generate_hospital_alerts (fixtureIncident .high) defaultParsedStrategy).map
        (fun a => a.hospital_id)) := by
  refine ⟨rfl, rfl, rfl, rfl, rfl, by norm_num, by decide⟩

/-! ## C7: provider failure versus unparseable provider output -/

/-- C7 counterexample: for a critical incident over the mock resource
snapshot, the strategy used when the provider output is unparseable has
capacity score 0.5, while the fallback strategy used when the provider call
fails scores 0.24; the unparseable-output case does not use the same
fallback as the failure case. -/
theorem unparseable_output_differs_from_fallback :
    (get_ai_strategy (.ok none) (fixtureIncident .critical) mockResources).capacity_score = 1/2
    ∧ (get_fallback_strategy (fixtureIncident .critical) mockResources).capacity_score = 24/100
    ∧ get_ai_strategy (.ok none) (fixtureIncident .critical) mockResources
        ≠ get_fallback_strategy (fixtureIncident .critical) mockResources := by
  have h1 : (get_ai_strategy (.ok none) (fixtureIncident .critical) mockResources).capacity_score
      = 1/2 := rfl
  have hc : countStatus mockResources "critical" = 0 := by decide
  have hl : countStatus mockResources "low" = 2 := by decide
  have h2 : (get_fallback_strategy (fixtureIncident .critical) mockResources).capacity_score
      = 24/100 := by
    simp only [get_fallback_strategy, fallbackFold_closed, hc, hl, fixtureIncident]
    norm_num [max_def, min_def]
  refine ⟨h1, h2, fun heq => ?_⟩
  have h3 := congrArg Strategy.capacity_score heq
  rw [h1, h2] at h3
  norm_num at h3

/-- C7 amended: a failed or timed-out provider call always yields the
deterministic fallback strategy and never propagates the error, while
unparseable provider output yields the fixed default parsed strategy. -/
theorem provider_failure_uses_fallback (e : String) (parsed : Option Strategy)
    (incident : IncidentReport) (resources : List ResourceStatus) :
    get_ai_strategy (.error e) incident resources = get_fallback_strategy incident resources
    ∧ get_ai_strategy (.ok none) incident resources = defaultParsedStrategy
    ∧ get_ai_strategy (.ok parsed) incident resources = parse_strategy parsed :=
  ⟨rfl, rfl, rfl⟩

/-! ## C1: the war-room gate withholds all critical-incident actions -/

/-- C1: for every orchestration request whose incident has critical severity,
whenever orchestrate returns, the returned result carries empty resource
requests and empty hospital alerts regardless of the auto flags, the message
ends with the awaiting-approval marker, any persisted pending record carries
exactly the compiled requests and alerts for the incident and strategy, and a
configured store whose insert succeeds always persists one. -/
theorem critical_incident_actions_withheld (request : OrchestrationRequest) (env : OrchEnv)
    (resp : OrchestrationResponse) (pending : Option PendingAlert)
    (hcrit : request.incident.severity = .critical)
    (hok : orchestrate request env = .ok (resp, pending)) :
    resp.result.resource_requests = []
    ∧ resp.result.hospital_alerts = []
    ∧ resp.message = "Orchestration complete. Capacity score: "
        ++ formatPercent resp.result.capacity_score
        ++ " [PAUSED: Awaiting War Room Approval]"
    ∧ pendingCarriesComputed pending request.incident
        (get_ai_strategy env.providerResult request.incident (get_resource_status env.resourceRow))
    ∧ ((env.storeConfigured && exceptIsOk env.storeInsert) = true → pending.isSome = true) := by
  obtain ⟨row, provider, storeConf, storeIns⟩ := env
  simp only [orchestrate] at hok
  rw [hcrit] at hok
  rcases hgen : generate_resource_requests request.incident
      (get_ai_strategy provider request.incident (get_resource_status row)) with e | reqs
  · rw [hgen] at hok
    simp at hok
  · rw [hgen] at hok
    cases storeConf <;> rcases storeIns with err | n <;>
      simp only [beq_self_eq_true, Bool.true_and, Bool.and_false, Bool.and_true, if_true,
        Bool.false_eq_true, reduceIte, Except.ok.injEq, Prod.mk.injEq] at hok <;>
      obtain ⟨h1, h2⟩ := hok <;> subst h1 <;> subst h2 <;>
      refine ⟨rfl, rfl, rfl, ?_, ?_⟩ <;>
      simp [pendingCarriesComputed, exceptIsOk, hgen]

/-- A concrete critical orchestration request with both auto flags set. -/
def criticalRequest : OrchestrationRequest :=
  { incident := fixtureIncident .critical,
    auto_request_resources := true,
    auto_alert_hospitals := true }

/-- A concrete environment: no resource row, failed provider call, configured
store whose insert succeeds. -/
def criticalEnv : OrchEnv :=
  { resourceRow := none,
    providerResult := .error "ProviderError: request timed out",
    storeConfigured := true,
    storeInsert := .ok 7 }

/-- The strategy orchestrate computes in the concrete environment. -/
def criticalStrategy : Strategy :=
  get_ai_strategy criticalEnv.providerResult criticalRequest.incident
    (get_resource_status criticalEnv.resourceRow)

/-- The response orchestrate returns in the concrete environment. -/
def criticalResponse : OrchestrationResponse :=
  { success := true,
    result :=
      { incident_id := criticalRequest.incident.id,
        resource_status := get_resource_status criticalEnv.resourceRow,
        resource_requests := [],
        hospital_alerts := [],
        recommendations := compile_recommendations criticalStrategy,
        capacity_score := criticalStrategy.capacity_score,
        prepared := decide (criticalStrategy.capacity_score ≥ 6/10) },
    message := "Orchestration complete. Capacity score: "
      ++ formatPercent criticalStrategy.capacity_score
      ++ " [PAUSED: Awaiting War Room Approval]" }

/-- The pending war-room record orchestrate persists in the concrete
environment. -/
def criticalPending : PendingAlert :=
  { incident_type := criticalRequest.incident.type.value,
    severity := criticalRequest.incident.severity.value,
    location := criticalRequest.incident.location.address,
    description := criticalRequest.incident.description,
    resource_requests := [],
    hospital_alerts := generate_hospital_alerts criticalRequest.incident criticalStrategy,
    strategy := criticalStrategy,
    status := "pending" }

/-- C1 witness: orchestrate evaluated at the concrete critical request
returns empty resource requests and alerts, the paused message, and the
pending record carrying the compiled actions. -/
theorem critical_incident_actions_withheld_witness :
    criticalRequest.incident.severity = SeverityLevel.critical
    ∧ orchestrate criticalRequest criticalEnv = .ok (criticalResponse, some criticalPending)
    ∧ criticalResponse.result.resource_requests = []
    ∧ criticalResponse.result.hospital_alerts = []
    ∧ criticalResponse.message = "Orchestration complete. Capacity score: "
        ++ formatPercent criticalResponse.result.capacity_score
        ++ " [PAUSED: Awaiting War Room Approval]"
    ∧ pendingCarriesComputed (some criticalPending) criticalRequest.incident
        (get_ai_strategy criticalEnv.providerResult criticalRequest.incident
          (get_resource_status criticalEnv.resourceRow))
    ∧ ((criticalEnv.storeConfigured && exceptIsOk criticalEnv.storeInsert) = true
        → (some criticalPending).isSome = true) := by
  have h := critical_incident_actions_withheld criticalRequest criticalEnv criticalResponse
    (some criticalPending) rfl rfl
  exact ⟨rfl, rfl, h.1, h.2.1, h.2.2.1, h.2.2.2.1, h.2.2.2.2⟩

/-! ## LangGraph workflow (src/agent/agents/graph.py)

graph.py defines its own pydantic models for the workflow state; they are
embedded here under the Graph namespace. The graph wiring is scanner →
analyzer → (orchestrator | responder) → responder → END, with the
conditional edge decided by the routing function after the analyzer. -/

namespace Graph

/-- The status Literal of VarunaState (graph.py line 109). -/
inductive WStatus where
  | idle
  | scanning
  | analyzing
  | orchestrating
  | complete
  | error
deriving DecidableEq, Repr

/-- IncidentData of graph.py (id and detected_at omitted: uuid4 and
datetime.now). -/
structure IncidentData where
  title : String
  description : String
  incident_type : String
  severity : SeverityLevel
  location : String
  distance_km : ℚ
  estimated_casualties : Int
  injury_types : List String
  eta_minutes : Int
  confidence : ℚ
  source : String := "scanner"
deriving DecidableEq, Repr

/-- ResourceStatus of graph.py. -/
structure ResourceStatus where
  resource_type : String
  current_level : ℚ
  max_capacity : ℚ
  status : String
  hours_remaining : Option ℚ := none
deriving DecidableEq, Repr

/-- ResourceRequest of graph.py (id omitted: uuid4). -/
structure ResourceRequest where
  resource_type : String
  quantity : Int
  urgency : SeverityLevel
  vendor_name : String
  eta_minutes : Int
  status : String := "pending"
deriving DecidableEq, Repr

/-- HospitalAlert of graph.py (id omitted: uuid4). -/
structure HospitalAlert where
  hospital_name : String
  alert_type : String
  message : String
  patients_to_route : Int := 0
deriving DecidableEq, Repr

/-- AgentDecision of graph.py (timestamp omitted: datetime.now). -/
structure AgentDecision where
  action : String
  reasoning : String
  priority : SeverityLevel
deriving DecidableEq, Repr

/-- VarunaState of graph.py; messages carry the message contents only. -/
structure VarunaState where
  query : String
  scan_requested : Bool
  messages : List String
  incidents : List IncidentData
  resources : List ResourceStatus
  resource_requests : List ResourceRequest
  hospital_alerts : List HospitalAlert
  decisions : List AgentDecision
  current_node : String
  should_orchestrate : Bool
  should_alert : Bool
  capacity_score : ℚ
  response : String
  status : WStatus
deriving DecidableEq, Repr

/-- scanner_node (graph.py lines 126-214): the argument is the outcome of the
LLM call plus JSON parsing and incident validation; the ok list is the
validated incidents, the error branch is the except handler. -/
def scanner_node (scanResult : Except String (List IncidentData))
    (state : VarunaState) : VarunaState :=
  match scanResult with
  | .ok incidents =>
    { state with
      incidents := incidents,
      should_orchestrate :=
        incidents.any (fun i => i.severity == .critical || i.severity == .high),
      status := .analyzing,
      current_node := "scanner",
      messages := state.messages
        ++ ["Detected " ++ toString incidents.length ++ " incidents"] }
  | .error e =>
    { state with
      incidents := [],
      status := .error,
      response := "Scanner error: " ++ e,
      messages := state.messages ++ ["Error: " ++ e] }

/-- The mock resource snapshot of analyzer_node (graph.py lines 222-229). -/
def analyzerResources : List ResourceStatus :=
  [ { resource_type := "beds", current_level := 30, max_capacity := 100, status := "adequate" },
    { resource_type := "icu_beds", current_level := 5, max_capacity := 20, status := "low" },
    { resource_type := "oxygen", current_level := 65, max_capacity := 100, status := "adequate", hours_remaining := some (156/10) },
    { resource_type := "ventilators", current_level := 8, max_capacity := 15, status := "adequate" },
    { resource_type := "blood_units", current_level := 40, max_capacity := 200, status := "low" },
    { resource_type := "staff", current_level := 45, max_capacity := 80, status := "adequate" } ]

/-- analyzer_node (graph.py lines 217-254). -/
def analyzer_node (state : VarunaState) : VarunaState :=
  let resources := analyzerResources
  let total_capacity : ℚ :=
    ((resources.map (fun r => r.current_level / r.max_capacity)).sum)
      / (resources.length : ℚ)
  let critical_resources := resources.filter (fun r => r.status == "critical")
  let total_casualties := (state.incidents.map (fun i => i.estimated_casualties)).sum
  let total_capacity :=
    if total_casualties > 20 then total_capacity * (7/10)
    else if total_casualties > 10 then total_capacity * (85/100)
    else total_capacity
  let should_alert := decide (total_capacity < 1/2) || decide (critical_resources.length > 0)
  { state with
    resources := resources,
    capacity_score := total_capacity,
    should_alert := should_alert,
    status := if state.should_orchestrate then .orchestrating else .complete,
    current_node := "analyzer" }

/-- One hospital_alerts entry of the orchestrator LLM response (graph.py
lines 344-352); dict.get defaults applied by the field defaults. -/
structure RawAlert where
  hospital : String := "Unknown"
  alert_type : String := "awareness"
  patients : Int := 0
deriving DecidableEq, Repr

/-- The parsed and validated outcome of the orchestrator node's LLM call
(graph.py lines 306-354); an LLM failure, a JSON parse failure, or a
validation failure is the except branch. -/
structure OrchOutcome where
  decisions : List AgentDecision
  resource_requests : List ResourceRequest
  hospital_alerts : List RawAlert
  summary : String := "Response plan generated."
deriving DecidableEq, Repr

/-- The title used in the alert message (graph.py line 348). -/
def firstIncidentTitle (incidents : List IncidentData) : String :=
  match incidents with
  | i :: _ => i.title
  | [] => "Incident"

/-- orchestrator_node (graph.py lines 257-372). -/
def orchestrator_node (outcome : Except String OrchOutcome)
    (state : VarunaState) : VarunaState :=
  match outcome with
  | .ok data =>
    { state with
      decisions := data.decisions,
      resource_requests := data.resource_requests,
      hospital_alerts := data.hospital_alerts.map (fun h =>
        { hospital_name := h.hospital,
          alert_type := h.alert_type,
          message := "Emergency alert: " ++ firstIncidentTitle state.incidents,
          patients_to_route := h.patients }),
      response := data.summary,
      status := .complete,
      current_node := "orchestrator" }
  | .error e =>
    { state with
      response := "Orchestration completed with limited AI analysis: " ++ e,
      status := .complete,
      current_node := "orchestrator" }

/-- One incident bullet of the responder summary (graph.py line 393). -/
def incidentLine (i : IncidentData) : String :=
  "  • " ++ i.title ++ " (" ++ i.severity.value ++ ")"

/-- One decision bullet of the responder summary (graph.py line 398). -/
def decisionLine (d : AgentDecision) : String :=
  "  • " ++ d.action

/-- responder_node (graph.py lines 375-410); the fetched LLM handle is never
invoked, the node is deterministic. -/
def responder_node (state : VarunaState) : VarunaState :=
  let response :=
    if state.incidents.length == 0 then
      "No emergency incidents detected. Systems normal."
    else
      "Emergency Response Summary:\n        \n📊 **Detected Incidents**: "
        ++ toString state.incidents.length ++ "\n"
        ++ String.intercalate "\n" ((state.incidents.take 3).map incidentLine)
        ++ "\n\n💪 **Capacity Score**: " ++ formatPercent state.capacity_score
        ++ "\n\n🎯 **Actions Taken**: " ++ toString state.decisions.length ++ " decisions\n"
        ++ String.intercalate "\n" ((state.decisions.take 3).map decisionLine)
        ++ "\n\n🏥 **Hospital Alerts**: " ++ toString state.hospital_alerts.length ++ " sent\n"
        ++ "📦 **Resource Requests**: " ++ toString state.resource_requests.length ++ " pending\n\n"
        ++ "Status: " ++ (if state.should_alert then "⚠️ ALERT" else "✅ Manageable")
  { state with
    response := response,
    status := .complete,
    current_node := "responder" }

/-- The two targets of the conditional edge after the analyzer. -/
inductive Route where
  | orchestrator
  | responder
deriving DecidableEq, Repr

/-- The routing function should_orchestrate (graph.py lines 417-421). -/
def should_orchestrate (state : VarunaState) : Route :=
  if state.should_orchestrate then .orchestrator else .responder

/-- The initial state of VarunaAgent.run (graph.py lines 494-509). -/
def initial_state (query : String) (scan : Bool) : VarunaState :=
  { query := query,
    scan_requested := scan,
    messages := [query],
    incidents := [],
    resources := [],
    resource_requests := [],
    hospital_alerts := [],
    decisions := [],
    current_node := "start",
    should_orchestrate := false,
    should_alert := false,
    capacity_score := 1,
    response := "",
    status := .scanning }

/-- One run of the compiled graph (build_varuna_graph, graph.py lines
435-468): scanner, then analyzer, then the conditional edge to the
orchestrator or straight to the responder, and the responder last. -/
def runGraph (scanResult : Except String (List IncidentData))
    (orchOutcome : Except String OrchOutcome) (query : String) (scan : Bool) : VarunaState :=
  let s1 := scanner_node scanResult (initial_state query scan)
  let s2 := analyzer_node s1
  let s3 :=
    match should_orchestrate s2 with
    | .orchestrator => orchestrator_node orchOutcome s2
    | .responder => s2
  responder_node s3

/-! ## C2: the one conditional edge of the graph -/

/-- C2: after a successful scan, the conditional edge routes to the
orchestrator and the state enters orchestrating exactly when some detected
incident has critical or high severity; when every incident is medium or
low, should_orchestrate is false, the edge routes directly to the responder,
the finished run carries no resource requests, and the run equals the
responder applied right after the analyzer. -/
theorem orchestration_routing_iff (incidents : List IncidentData)
    (orchOutcome : Except String OrchOutcome) (query : String) (scan : Bool) :
    (should_orchestrate (analyzer_node (scanner_node (.ok incidents) (initial_state query scan)))
          = Route.orchestrator
        ∧ (analyzer_node (scanner_node (.ok incidents) (initial_state query scan))).status
          = WStatus.orchestrating
      ↔ ∃ i ∈ incidents, i.severity = SeverityLevel.critical ∨ i.severity = SeverityLevel.high)
    ∧ ((∀ i ∈ incidents, i.severity = SeverityLevel.medium ∨ i.severity = SeverityLevel.low) →
        (scanner_node (.ok incidents) (initial_state query scan)).should_orchestrate = false
        ∧ should_orchestrate (analyzer_node (scanner_node (.ok incidents) (initial_state query scan)))
            = Route.responder
        ∧ (runGraph (.ok incidents) orchOutcome query scan).resource_requests = []
        ∧ runGraph (.ok incidents) orchOutcome query scan
            = responder_node (analyzer_node (scanner_node (.ok incidents) (initial_state query scan)))) := by
  have hso : (scanner_node (.ok incidents) (initial_state query scan)).should_orchestrate
      = incidents.any (fun i => i.severity == .critical || i.severity == .high) := rfl
  have hstat : (analyzer_node (scanner_node (.ok incidents) (initial_state query scan))).status
      = if incidents.any (fun i => i.severity == .critical || i.severity == .high)
        then WStatus.orchestrating else WStatus.complete := rfl
  have hroute : should_orchestrate (analyzer_node (scanner_node (.ok incidents) (initial_state query scan)))
      = if incidents.any (fun i => i.severity == .critical || i.severity == .high)
        then Route.orchestrator else Route.responder := rfl
  constructor
  · cases hp : incidents.any (fun i => i.severity == .critical || i.severity == .high) with
    | true =>
      simp only [hroute, hstat, hp, if_true, true_and, and_self, true_iff]
      simpa [List.any_eq_true] using hp
    | false =>
      simp only [hroute, hstat, hp, Bool.false_eq_true, if_false]
      constructor
      · rintro ⟨hcontra, -⟩
        cases hcontra
      · rintro ⟨i, hi, hsev⟩
        have h2 := (List.any_eq_false.mp hp) i hi
        rcases hsev with h | h <;> simp [h] at h2
  · intro hml
    have hfalse : incidents.any (fun i => i.severity == .critical || i.severity == .high) = false := by
      rw [List.any_eq_false]
      intro i hi
      rcases hml i hi with h | h <;> simp [h]
    have hrun : runGraph (.ok incidents) orchOutcome query scan
        = responder_node (analyzer_node (scanner_node (.ok incidents) (initial_state query scan))) := by
      simp only [runGraph]
      rw [hroute, hfalse]
      rfl
    refine ⟨?_, ?_, ?_, hrun⟩
    · rw [hso, hfalse]
    · rw [hroute, hfalse]
      rfl
    · rw [hrun]
      rfl

/-! ## C5: termination and final messages of a workflow run -/

/-- A string with a nonempty left part is nonempty. -/
theorem append_left_ne_empty (a b : String) (ha : a ≠ "") : a ++ b ≠ "" := by
  intro h
  have hd := congrArg String.data h
  rw [String.data_append] at hd
  exact ha (String.ext (List.append_eq_nil.mp hd).1)

/-- The responder always produces a nonempty response. -/
theorem responder_response_ne_empty (s : VarunaState) : (responder_node s).response ≠ "" := by
  cases h : (s.incidents.length == 0) with
  | true =>
    simp only [responder_node, h, if_true]
    decide
  | false =>
    simp only [responder_node, h, Bool.false_eq_true, if_false]
    repeat' apply append_left_ne_empty
    decide

/-- C5 amended: every workflow run terminates with status complete and a
nonempty, human-readable response; the error status a failing scan step sets
is overwritten by the analyzer and responder, and such a run ends complete
with the generic no-incidents message rather than an error message. -/
theorem workflow_always_completes (scanResult : Except String (List IncidentData))
    (orchOutcome : Except String OrchOutcome) (query : String) (scan : Bool) :
    (runGraph scanResult orchOutcome query scan).status = WStatus.complete
    ∧ (runGraph scanResult orchOutcome query scan).response ≠ ""
    ∧ (∀ e, scanResult = .error e →
        (runGraph scanResult orchOutcome query scan).response
          = "No emergency incidents detected. Systems normal.") := by
  refine ⟨rfl, responder_response_ne_empty _, ?_⟩
  intro e he
  subst he
  rfl

/-- A concrete empty outcome for the orchestrator node's provider call. -/
def emptyOrchOutcome : OrchOutcome :=
  { decisions := [], resource_requests := [], hospital_alerts := [],
    summary := "Response plan generated." }

/-- C5 counterexample: a run whose scan step fails ends with status complete
rather than error, and its final response is the generic no-incidents
message, character for character the response of a successful run that found
nothing; the final state carries no error message. -/
theorem scan_failure_masked :
    (runGraph (.error "boom") (.ok emptyOrchOutcome) "check the city" true).status
        = WStatus.complete
    ∧ (runGraph (.error "boom") (.ok emptyOrchOutcome) "check the city" true).response
        = "No emergency incidents detected. Systems normal."
    ∧ (runGraph (.error "boom") (.ok emptyOrchOutcome) "check the city" true).response
        = (runGraph (.ok []) (.ok emptyOrchOutcome) "check the city" true).response :=
  ⟨rfl, rfl, rfl⟩

/-! ## C8: the analyzer's aggregate capacity score -/

/-- C8: the analyzer's capacity score is the average of current over
capacity across the resource snapshot multiplied afterwards by exactly one
casualty-load penalty factor: 0.7 when total estimated casualties exceed 20,
else 0.85 when they exceed 10, else 1; the result lies in the unit
interval. -/
theorem analyzer_capacity_score (state : VarunaState) :
    (analyzer_node state).capacity_score
      = (((analyzerResources.map (fun r => r.current_level / r.max_capacity)).sum)
            / (analyzerResources.length : ℚ))
        * (if (state.incidents.map (fun i => i.estimated_casualties)).sum > 20 then 7/10
           else if (state.incidents.map (fun i => i.estimated_casualties)).sum > 10 then 85/100
           else 1)
    ∧ 0 ≤ (analyzer_node state).capacity_score
    ∧ (analyzer_node state).capacity_score ≤ 1 := by
  have havg : (((analyzerResources.map (fun r => r.current_level / r.max_capacity)).sum)
      / (analyzerResources.length : ℚ)) = 599/1440 := by
    norm_num [analyzerResources]
  have hrw : (analyzer_node state).capacity_score
      = (599/1440 : ℚ)
        * (if (state.incidents.map (fun i => i.estimated_casualties)).sum > 20 then 7/10
           else if (state.incidents.map (fun i => i.estimated_casualties)).sum > 10 then 85/100
           else 1) := by
    show (if (state.incidents.map (fun i => i.estimated_casualties)).sum > 20
          then (((analyzerResources.map (fun r => r.current_level / r.max_capacity)).sum)
              / (analyzerResources.length : ℚ)) * (7/10)
          else if (state.incidents.map (fun i => i.estimated_casualties)).sum > 10
          then (((analyzerResources.map (fun r => r.current_level / r.max_capacity)).sum)
              / (analyzerResources.length : ℚ)) * (85/100)
          else (((analyzerResources.map (fun r => r.current_level / r.max_capacity)).sum)
              / (analyzerResources.length : ℚ))) = _
    rw [havg]
    split_ifs <;> norm_num
  rw [hrw, havg]
  refine ⟨rfl, ?_, ?_⟩ <;> split_ifs <;> norm_num

end Graph

/-! ## Deduplication and cache gate (src/agent/redis_client.py,
src/agent/agents/scanner.py) -/

/-- RedisManager.exists (redis_client.py lines 56-63): false when the client
is disabled, the key count when the call succeeds, false when it raises. -/
def redisExists (enabled : Bool) (backend : Except String Nat) : Bool :=
  if enabled then
    match backend with
    | .ok n => decide (n > 0)
    | .error _ => false
  else false

/-- RedisManager.set (redis_client.py lines 46-54): false when the client is
disabled, the backend result when the call succeeds, false when it raises;
it never raises to the caller. -/
def redisSet (enabled : Bool) (backend : Except String Bool) : Bool :=
  if enabled then
    match backend with
    | .ok b => b
    | .error _ => false
  else false

/-- The deduplication gate of the scan loop (scanner.py lines 109-114): a
search result is processed exactly when its fingerprint is not already
marked. -/
def scanProcessesResult (enabled : Bool) (backend : Except String Nat) : Bool :=
  ! redisExists enabled backend

/-- C9: the deduplication gate fails open: with the cache backend disabled or
a cache operation raising, the membership check returns false (not yet
processed), marking returns false instead of raising, and the scanner
processes the incident instead of halting intake. -/
theorem dedup_gate_fails_open (backendE : Except String Nat)
    (backendS : Except String Bool) (msg : String) :
    redisExists false backendE = false
    ∧ redisExists true (.error msg) = false
    ∧ redisSet false backendS = false
    ∧ redisSet true (.error msg) = false
    ∧ scanProcessesResult false backendE = true
    ∧ scanProcessesResult true (.error msg) = true :=
  ⟨rfl, rfl, rfl, rfl, rfl, rfl⟩

end Varuna
